import Mathlib

/- Shallow embedding of the safecaption caption-validation service:
   the `POST /api/v1/validate` request handler, the content-validation
   pipeline (hate-speech / spam / compliance checks, scoring metrics,
   suggestion generation) and the access gate (`validateApiKey`,
   `checkRateLimit`, from the api-auth module).  Captions and keys are
   modelled as `List Char`; the external store is a concrete table of
   key rows and usage-log rows plus explicit fault flags for the places
   where a store call can return an error object or throw. -/

namespace SafeCaption

/-- Word characters of the JS regex class `\w`: ASCII letters, digits, underscore. -/
def isWordChar (c : Char) : Bool :=
  ('a' ≤ c && c ≤ 'z') || ('A' ≤ c && c ≤ 'Z') || ('0' ≤ c && c ≤ '9') || c = '_'

/-- Whitespace characters of the JS regex class `\s` (the ASCII ones plus NBSP). -/
def isSpaceChar (c : Char) : Bool :=
  c = ' ' || c = '\t' || c = '\n' || c = '\r' || c.toNat = 12 || c.toNat = 11 || c.toNat = 0xA0

/-- Case-fold a string, as `String.prototype.toLowerCase` does on ASCII. -/
def lowerList (s : List Char) : List Char := s.map Char.toLower

/-- Strip leading and trailing whitespace, as `String.prototype.trim`. -/
def trimList (s : List Char) : List Char :=
  ((s.dropWhile isSpaceChar).reverse.dropWhile isSpaceChar).reverse

/-- Substring containment, as `String.prototype.includes`. -/
def containsSub (needle : List Char) : List Char → Bool
  | [] => needle.isEmpty
  | c :: rest => needle.isPrefixOf (c :: rest) || containsSub needle rest

/-- Replace the first occurrence of `needle` by `repl`, as one-argument
`String.prototype.replace` with a plain-string search value. -/
def replaceFirstSub (needle repl : List Char) : List Char → List Char
  | [] => []
  | c :: rest =>
    if needle.isPrefixOf (c :: rest) then repl ++ (c :: rest).drop needle.length
    else c :: replaceFirstSub needle repl rest

/-- Remove the first occurrence of the character `c`, as `h.replace('#','')`. -/
def removeFirstChar (c : Char) : List Char → List Char
  | [] => []
  | x :: xs => if x = c then xs else x :: removeFirstChar c xs

/-- One piece of a regex alternative: a literal run, or a `\s*` gap. -/
inductive Piece where
  | lit : List Char → Piece
  | ws : Piece
deriving DecidableEq

/-- A pattern of the shape used by the rule tables: an ordered alternation of
piece sequences, optionally wrapped in `\b ... \b` word boundaries. -/
structure RePat where
  bounded : Bool
  alts : List (List Piece)
deriving DecidableEq

/-- Match a piece sequence at the head of `s`, returning the number of characters
consumed.  The `\s*` gap is taken greedily, which agrees with the JS engine
because every following literal in the rule tables starts with a word character. -/
def matchPiecesLen : List Piece → List Char → Option Nat
  | [], _ => some 0
  | Piece.lit t :: ps, s =>
    if t.isPrefixOf s then (matchPiecesLen ps (s.drop t.length)).map (fun n => t.length + n)
    else none
  | Piece.ws :: ps, s =>
    (matchPiecesLen ps (s.dropWhile isSpaceChar)).map
      (fun n => (s.takeWhile isSpaceChar).length + n)

/-- `\b` holds before the match when there is no previous character or it is not a
word character (all table alternatives begin with a word character). -/
def prevBoundaryOk : Option Char → Bool
  | none => true
  | some c => !isWordChar c

/-- `\b` holds after the match when the rest is empty or starts with a non-word
character (all table alternatives end with a word character). -/
def nextBoundaryOk : List Char → Bool
  | [] => true
  | c :: _ => !isWordChar c

/-- Try the alternatives of `p` in order at the head of `s` (the character before
`s` being `prev`), returning the consumed length of the first one that matches. -/
def matchPatAt (p : RePat) (prev : Option Char) (s : List Char) : Option Nat :=
  if p.bounded && !prevBoundaryOk prev then none
  else
    p.alts.findSome? fun ps =>
      match matchPiecesLen ps s with
      | some n => if !p.bounded || nextBoundaryOk (s.drop n) then some n else none
      | none => none

/-- Scan every position of an (already lower-cased) string for a match of `p`. -/
def testPatAux (p : RePat) (prev : Option Char) : List Char → Bool
  | [] => false
  | c :: rest => (matchPatAt p prev (c :: rest)).isSome || testPatAux p (some c) rest

/-- RegExp.prototype.test of a table pattern against a caption; the `i` flag is
modelled by lower-casing the caption (the table literals are lower case). -/
def testPat (p : RePat) (caption : List Char) : Bool :=
  testPatAux p none (lowerList caption)

/-- Build a literal piece from a string. -/
def lit (s : String) : Piece := Piece.lit s.toList

/-- The `INAPPROPRIATE_PATTERNS` table, first entry:
`\b(hate|violence|abuse|harassment)\b` with flags `gi`. -/
def inappropriatePat1 : RePat :=
  ⟨true, [[lit "hate"], [lit "violence"], [lit "abuse"], [lit "harassment"]]⟩

/-- Second entry: `\b(spam|follow4follow|f4f|l4l)\b`. -/
def inappropriatePat2 : RePat :=
  ⟨true, [[lit "spam"], [lit "follow4follow"], [lit "f4f"], [lit "l4l"]]⟩

/-- Third entry: `\b(click\s*link|bio\s*link|dm\s*me)\b`. -/
def inappropriatePat3 : RePat :=
  ⟨true, [[lit "click", Piece.ws, lit "link"], [lit "bio", Piece.ws, lit "link"],
          [lit "dm", Piece.ws, lit "me"]]⟩

/-- Fourth entry: `\b(free\s*followers|buy\s*followers)\b`. -/
def inappropriatePat4 : RePat :=
  ⟨true, [[lit "free", Piece.ws, lit "followers"], [lit "buy", Piece.ws, lit "followers"]]⟩

/-- The module-level `INAPPROPRIATE_PATTERNS` table, in source order. -/
def INAPPROPRIATE_PATTERNS : List RePat :=
  [inappropriatePat1, inappropriatePat2, inappropriatePat3, inappropriatePat4]

/-- The `SPAM_INDICATORS` table of plain substrings. -/
def SPAM_INDICATORS : List String :=
  ["DM for collab", "Check my bio", "Link in bio", "100% real", "No scam", "Get rich quick"]

/-- First misleading-claim pattern: `guaranteed\s*(results|success|money)` (no `\b`). -/
def misleadingPat1 : RePat :=
  ⟨false, [[lit "guaranteed", Piece.ws, lit "results"], [lit "guaranteed", Piece.ws, lit "success"],
           [lit "guaranteed", Piece.ws, lit "money"]]⟩

/-- Second misleading-claim pattern: `\b(cure|miracle|instant\s*results)\b`. -/
def misleadingPat2 : RePat :=
  ⟨true, [[lit "cure"], [lit "miracle"], [lit "instant", Piece.ws, lit "results"]]⟩

/-- Third misleading-claim pattern: `\b(medical\s*advice|financial\s*advice)\b`. -/
def misleadingPat3 : RePat :=
  ⟨true, [[lit "medical", Piece.ws, lit "advice"], [lit "financial", Piece.ws, lit "advice"]]⟩

/-- The misleading-claim table built inside the compliance check. -/
def MISLEADING_PATTERNS : List RePat := [misleadingPat1, misleadingPat2, misleadingPat3]

/-- Mirror of the `for ... if (pattern.test(caption)) { ...; break }` loops: scan
the table in order and stop at the first matching pattern. -/
def firstMatchScan (caption : List Char) : List RePat → Bool
  | [] => false
  | p :: ps => if testPat p caption then true else firstMatchScan caption ps

/-- Mirror of the spam-indicator loop: first case-insensitive containment match stops
the scan. -/
def spamScan (lowerCaption : List Char) : List String → Bool
  | [] => false
  | ind :: rest =>
    if containsSub (lowerList ind.toList) lowerCaption then true else spamScan lowerCaption rest

/-- Membership in the emoji ranges counted by the spam check. -/
def isSpamEmoji (c : Char) : Bool :=
  (0x1F600 ≤ c.toNat && c.toNat ≤ 0x1F64F) || (0x1F300 ≤ c.toNat && c.toNat ≤ 0x1F5FF) ||
  (0x1F680 ≤ c.toNat && c.toNat ≤ 0x1F6FF) || (0x2600 ≤ c.toNat && c.toNat ≤ 0x26FF) ||
  (0x2700 ≤ c.toNat && c.toNat ≤ 0x27BF)

/-- Membership in the narrower emoji ranges counted by the engagement score. -/
def isEngagementEmoji (c : Char) : Bool :=
  (0x1F600 ≤ c.toNat && c.toNat ≤ 0x1F64F) || (0x1F300 ≤ c.toNat && c.toNat ≤ 0x1F5FF)

/-- Counting scan for `caption.match(/#\w+/g)`: state 0 = outside, 1 = just saw `#`,
2 = inside a counted `\w+` run; non-overlapping matches as in the JS engine. -/
def countHashtagAux (st : Nat) : List Char → Nat
  | [] => 0
  | c :: rest =>
    if st = 1 && isWordChar c then 1 + countHashtagAux 2 rest
    else if st = 2 && isWordChar c then countHashtagAux 2 rest
    else if c = '#' then countHashtagAux 1 rest
    else countHashtagAux 0 rest

/-- Number of `#\w+` tokens inside the caption body. -/
def countHashtagTokens (s : List Char) : Nat := countHashtagAux 0 s

/-- Accumulator pass collecting the maximal runs of non-delimiter characters. -/
def chunksByAux (p : Char → Bool) (cur : List Char) : List Char → List (List Char)
  | [] => if cur.isEmpty then [] else [cur.reverse]
  | c :: rest =>
    if p c then (if cur.isEmpty then [] else [cur.reverse]) ++ chunksByAux p [] rest
    else chunksByAux p (c :: cur) rest

/-- Maximal runs of characters not satisfying `p`. -/
def chunksBy (p : Char → Bool) (s : List Char) : List (List Char) :=
  chunksByAux p [] s

/-- JS `String.prototype.split` on a one-or-more character-class regex: interior
delimiter runs separate the chunks, and a delimiter run touching either end of the
string contributes an empty fragment there; the empty string splits to one empty
fragment. -/
def jsSplitRuns (p : Char → Bool) (s : List Char) : List (List Char) :=
  match s with
  | [] => [[]]
  | c :: _ =>
    (if p c then [[]] else []) ++ chunksBy p s ++ (if p (s.getLastD c) then [[]] else [])

/-- Sentence fragments of `caption.split(/[.!?]+/)` that survive
`filter(s => s.trim().length > 0)`. -/
def sentencesOf (caption : List Char) : List (List Char) :=
  (jsSplitRuns (fun c => c = '.' || c = '!' || c = '?') caption).filter
    (fun s => (trimList s).length > 0)

/-- Word fragments of `caption.split(/\s+/)` that survive `filter(w => w.length > 0)`. -/
def wordsOf (caption : List Char) : List (List Char) :=
  (jsSplitRuns isSpaceChar caption).filter (fun w => w.length > 0)

/-- Words-per-sentence average with the sentence count floored at 1, exactly as
`words.length / Math.max(1, sentences.length)`. -/
def avgWordsPerSentence (caption : List Char) : ℚ :=
  ((wordsOf caption).length : ℚ) / ((max 1 (sentencesOf caption).length : ℕ) : ℚ)

/-- The readability metric of `calculateReadabilityScore`. -/
def calculateReadabilityScore (caption : List Char) : ℕ :=
  if 10 ≤ avgWordsPerSentence caption ∧ avgWordsPerSentence caption ≤ 15 then 90
  else if 5 ≤ avgWordsPerSentence caption ∧ avgWordsPerSentence caption ≤ 20 then 70
  else 50

/-- Round half up on rationals, as `Math.round` on the non-negative values produced
by the relevance metric. -/
def jsRound (q : ℚ) : ℤ := Int.floor (q + 1 / 2)

/-- The hashtag-relevance metric of `calculateHashtagRelevance`; note that the
caption words come from an unfiltered `split(/\s+/)`. -/
def calculateHashtagRelevance (caption : List Char) (hashtags : List (List Char)) : ℤ :=
  if hashtags.length = 0 then 50
  else
    let captionWords := jsSplitRuns isSpaceChar (lowerList caption)
    let relevant := hashtags.filter fun h =>
      let clean := lowerList (removeFirstChar '#' h)
      captionWords.any fun w => containsSub clean w || containsSub w clean
    jsRound ((relevant.length : ℚ) / (hashtags.length : ℚ) * 100)

/-- First call-to-action pattern: `\b(comment|share|like|follow|tag|save)\b`. -/
def ctaPatVerbs : RePat :=
  ⟨true, [[lit "comment"], [lit "share"], [lit "like"], [lit "follow"], [lit "tag"],
          [lit "save"]]⟩

/-- Second call-to-action pattern: `\b(let me know|thoughts|agree|disagree)\b`. -/
def ctaPatPhrases : RePat :=
  ⟨true, [[lit "let me know"], [lit "thoughts"], [lit "agree"], [lit "disagree"]]⟩

/-- Third call-to-action pattern `/\?$/m`: a question mark at the end of the string
or immediately before a line terminator. -/
def questionLineEnd : List Char → Bool
  | [] => false
  | ['?'] => true
  | '?' :: c :: rest =>
    (c = '\n' || c = '\r' || c.toNat = 0x2028 || c.toNat = 0x2029) || questionLineEnd (c :: rest)
  | _ :: rest => questionLineEnd rest

/-- The engagement metric of `calculateEngagementScore`. -/
def calculateEngagementScore (caption : List Char) (hashtags : List (List Char)) : ℕ :=
  let ctaBonus :=
    if testPat ctaPatVerbs caption || testPat ctaPatPhrases caption || questionLineEnd caption
    then 10 else 0
  let lenBonus :=
    if 100 ≤ caption.length ∧ caption.length ≤ 150 then 20
    else if 50 ≤ caption.length ∧ caption.length ≤ 200 then 10
    else 0
  let tagBonus :=
    if 5 ≤ hashtags.length ∧ hashtags.length ≤ 10 then 15
    else if 3 ≤ hashtags.length ∧ hashtags.length ≤ 15 then 10
    else 0
  let emojiBonus :=
    if 1 ≤ (caption.filter isEngagementEmoji).length ∧
       (caption.filter isEngagementEmoji).length ≤ 3 then 5 else 0
  min 100 (50 + ctaBonus + lenBonus + tagBonus + emojiBonus)

/-- Accumulator pass of `[...new Set(xs)]`: a JS `Set` keeps first occurrences in
insertion order. -/
def dedupFirstAux (seen : List (List Char)) : List (List Char) → List (List Char)
  | [] => []
  | x :: xs =>
    if seen.contains x then dedupFirstAux seen xs
    else x :: dedupFirstAux (x :: seen) xs

/-- Order-preserving first-occurrence de-duplication. -/
def dedupFirst (l : List (List Char)) : List (List Char) := dedupFirstAux [] l

/-- Prefix a tag with `#` when it does not already start with one. -/
def ensureHash (h : List Char) : List Char :=
  match h with
  | '#' :: _ => h
  | _ => '#' :: h

/-- The trending fallback list appended while fewer than 30 tags are present. -/
def TRENDING : List (List Char) :=
  ["#reels".toList, "#instagram".toList, "#viral".toList, "#explore".toList,
   "#instagood".toList]

/-- Mirror of the trending loop: push each trending tag while the list holds fewer
than 30 entries and does not already contain it. -/
def addTrendingAux (optimized : List (List Char)) : List (List Char) → List (List Char)
  | [] => optimized
  | t :: ts =>
    if optimized.length < 30 && !optimized.contains t then addTrendingAux (optimized ++ [t]) ts
    else addTrendingAux optimized ts

/-- The `optimizeHashtags` suggestion function: lower-case, de-duplicate, prefix `#`,
truncate to 30, then pad from the trending list.  The caption argument is accepted
and ignored, as in the source. -/
def optimizeHashtags (hashtags : List (List Char)) (_caption : List Char) : List (List Char) :=
  let unique := dedupFirst (hashtags.map lowerList)
  let formatted := unique.map ensureHash
  let optimized := formatted.take 30
  addTrendingAux optimized TRENDING

/-- Global regex replacement for a table pattern, as `sanitized.replace(pattern, m)`:
scan left to right, replace each non-overlapping match, resume after it.  Matching is
done on the lower-cased view of the remaining text (`i` flag). -/
def replacePatAll (p : RePat) (repl : List Char) (prev : Option Char) (s : List Char) :
    List Char :=
  match s with
  | [] => []
  | c :: rest =>
    match matchPatAt p prev (lowerList (c :: rest)) with
    | some (n + 1) =>
      repl ++ replacePatAll p repl (some ((c :: rest).getD n c)) (rest.drop n)
    | _ => c :: replacePatAll p repl (some c) rest
termination_by s.length
decreasing_by
  · simp only [List.length_cons]
    have h := List.length_drop n rest
    omega
  · simp only [List.length_cons]
    omega

/-- Case-insensitive global removal of a nonempty literal, the effect of
`sanitized.replace(new RegExp(indicator, 'gi'), '')` for the plain-text indicators. -/
def removeAllCI (n0 : Char) (ntail : List Char) : List Char → List Char
  | [] => []
  | c :: rest =>
    if (lowerList (n0 :: ntail)).isPrefixOf (lowerList (c :: rest)) then
      removeAllCI n0 ntail (rest.drop ntail.length)
    else c :: removeAllCI n0 ntail rest
termination_by s => s.length
decreasing_by
  · simp only [List.length_cons]
    have h := List.length_drop ntail.length rest
    omega
  · simp only [List.length_cons]
    omega

/-- Dispatch on the (always nonempty) indicator literal. -/
def removeAllSub (needle : List Char) (s : List Char) : List Char :=
  match needle with
  | [] => s
  | n0 :: ntail => removeAllCI n0 ntail s

/-- Collapse every run of `minRun` or more copies of `c` to `repl`, the effect of the
punctuation clean-up replaces such as `/[!]{3,}/g` to a single `!`. -/
def collapseRuns (c : Char) (minRun : Nat) (repl : List Char) : List Char → List Char
  | [] => []
  | x :: rest =>
    if x = c then
      (if minRun ≤ 1 + (rest.takeWhile (fun d => d = c)).length then repl
       else x :: rest.takeWhile (fun d => d = c)) ++
        collapseRuns c minRun repl (rest.dropWhile (fun d => d = c))
    else x :: collapseRuns c minRun repl rest
termination_by s => s.length
decreasing_by
  · simp only [List.length_cons]
    exact Nat.lt_succ_of_le (List.Sublist.length_le (List.dropWhile_sublist _))
  · simp only [List.length_cons]
    omega

/-- The `sanitizeCaption` suggestion function: mask inappropriate matches with `***`,
delete spam indicators, collapse excessive punctuation, trim. -/
def sanitizeCaption (caption : List Char) : List Char :=
  let s1 := INAPPROPRIATE_PATTERNS.foldl (fun acc p => replacePatAll p "***".toList none acc)
    caption
  let s2 := SPAM_INDICATORS.foldl (fun acc ind => removeAllSub ind.toList acc) s1
  let s3 := collapseRuns '!' 3 ['!'] s2
  let s4 := collapseRuns '?' 3 ['?'] s3
  let s5 := collapseRuns '.' 4 "...".toList s4
  trimList s5

/-- The request `options` object; a missing field is `none` and each check treats
only an explicit `false` as disabled (`options.x !== false`). -/
structure OptionsModel where
  checkHateSpeech : Option Bool
  checkSpam : Option Bool
  checkCompliance : Option Bool
  optimizeHashtags : Option Bool
  predictEngagement : Option Bool
deriving DecidableEq

/-- The parsed request body (`caption`, `hashtags = []` by default, `options = {}`
by default); an absent caption is the empty list, as `!caption` treats both alike. -/
structure BodyModel where
  caption : List Char
  hashtags : List (List Char)
  options : OptionsModel
deriving DecidableEq

/-- The joined `profiles` row fields read by the gate. -/
structure Profile where
  api_calls_count : Nat
  api_calls_limit : Nat
  subscription_tier : String
deriving DecidableEq

/-- An `api_keys` row with its joined profile. -/
structure ApiKeyRow where
  id : Nat
  key : List Char
  is_active : Bool
  profile : Profile
deriving DecidableEq

/-- A `usage_logs` row as read by the rate check. -/
structure UsageLog where
  api_key_id : Nat
  created_at : Int
deriving DecidableEq

/-- The external store: a configured flag and the two tables the gate reads. -/
structure Store where
  configured : Bool
  api_keys : List ApiKeyRow
  usage_logs : List UsageLog

/-- Fault flags for the store interactions: a query can return an error object
(leaving `data` null) or the call can throw into the enclosing catch. -/
structure Faults where
  vkQueryErr : Bool
  vkRaises : Bool
  rlKeyQueryErr : Bool
  rlUsageQueryErr : Bool
  rlRaises : Bool

/-- One request's environment: store contents, fault flags, the current clock and
the measured processing time. -/
structure Env where
  store : Store
  faults : Faults
  now : Int
  elapsed : Nat

/-- Single-row lookup `.eq('key', k).eq('is_active', true).single()` (keys are
unique in the schema). -/
def findActiveKey (store : Store) (k : List Char) : Option ApiKeyRow :=
  store.api_keys.find? fun r => r.key == k && r.is_active

/-- Single-row lookup `.eq('key', k).single()` used by the rate check. -/
def findKey (store : Store) (k : List Char) : Option ApiKeyRow :=
  store.api_keys.find? fun r => r.key == k

/-- Result record of `validateApiKey`. -/
structure VKOut where
  valid : Bool
  keyData : Option ApiKeyRow
  error : Option String
deriving DecidableEq

/-- The cleaned key: `apiKey.replace('Bearer ', '').trim()`. -/
def cleanKeyOf (apiKey : List Char) : List Char :=
  trimList (replaceFirstSub "Bearer ".toList [] apiKey)

/-- The `validateApiKey` gate step.  A thrown store call is modelled by
`faults.vkRaises` (the catch returns the same record wherever the throw happens)
and a query that reports an error by `faults.vkQueryErr`, which the source folds
into the not-found branch. -/
def validateApiKey (env : Env) (apiKey : List Char) : VKOut :=
  if env.store.configured = false then ⟨false, none, some "Database not configured"⟩
  else if apiKey.isEmpty then ⟨false, none, some "API key required"⟩
  else if ("sk_".toList.isPrefixOf (cleanKeyOf apiKey)) = false then
    ⟨false, none, some "Invalid API key format"⟩
  else if env.faults.vkRaises then ⟨false, none, some "Failed to validate API key"⟩
  else if env.faults.vkQueryErr then ⟨false, none, some "Invalid API key"⟩
  else
    match findActiveKey env.store (cleanKeyOf apiKey) with
    | none => ⟨false, none, some "Invalid API key"⟩
    | some row =>
      if row.profile.api_calls_count ≥ row.profile.api_calls_limit then
        ⟨false, none, some "API limit exceeded. Please upgrade your plan."⟩
      else ⟨true, some row, none⟩

/-- Per-minute and per-hour limits of one tier. -/
structure TierLimits where
  perMinute : Nat
  perHour : Nat
deriving DecidableEq

/-- The `rateLimits` table with the `rateLimits[tier] || rateLimits.free` fallback. -/
def rateLimitsFor (tier : String) : TierLimits :=
  if tier = "free" then ⟨10, 100⟩
  else if tier = "pro" then ⟨60, 1000⟩
  else if tier = "enterprise" then ⟨1000, 10000⟩
  else ⟨10, 100⟩

/-- Number of usage-log rows for this key id with `created_at ≥ now - 60000`. -/
def recentUsageCount (env : Env) (keyId : Nat) : Nat :=
  (env.store.usage_logs.filter fun l =>
    l.api_key_id == keyId && decide (l.created_at ≥ env.now - 60000)).length

/-- Result record of `checkRateLimit`. -/
structure RLOut where
  allowed : Bool
  limit : Option Nat
  remaining : Option Nat
deriving DecidableEq

/-- The `checkRateLimit` gate step, called with the RAW header value (the source
never strips a `Bearer ` prefix here).  A throw anywhere inside the try block is
modelled by `faults.rlRaises` (the catch allows); an error object on the key query
leaves its `data` null, which the source treats as key-not-found and denies; an
error object on the usage-log query is checked explicitly and allows. -/
def checkRateLimit (env : Env) (apiKey : List Char) : RLOut :=
  if env.store.configured = false then ⟨true, none, none⟩
  else if env.faults.rlRaises then ⟨true, none, none⟩
  else
    match (if env.faults.rlKeyQueryErr then none else findKey env.store apiKey) with
    | none => ⟨false, none, none⟩
    | some row =>
      if env.faults.rlUsageQueryErr then ⟨true, none, none⟩
      else
        let perMinute := (rateLimitsFor row.profile.subscription_tier).perMinute
        let usageCount := recentUsageCount env row.id
        if usageCount ≥ perMinute then ⟨false, some perMinute, some 0⟩
        else ⟨true, some perMinute, some (perMinute - usageCount)⟩

/-- Hate-speech branch taken: check enabled and some inappropriate pattern matches. -/
def hateHit (opts : OptionsModel) (caption : List Char) : Bool :=
  decide (opts.checkHateSpeech ≠ some false) && firstMatchScan caption INAPPROPRIATE_PATTERNS

/-- Spam-phrase branch taken. -/
def spamHit (opts : OptionsModel) (caption : List Char) : Bool :=
  decide (opts.checkSpam ≠ some false) && spamScan (lowerList caption) SPAM_INDICATORS

/-- Excessive-emoji branch taken (inside the spam check, not gated on the phrase hit). -/
def emojiHit (opts : OptionsModel) (caption : List Char) : Bool :=
  decide (opts.checkSpam ≠ some false) && decide ((caption.filter isSpamEmoji).length > 15)

/-- Excessive-hashtags-in-caption branch taken (inside the spam check). -/
def tagsHit (opts : OptionsModel) (caption : List Char) : Bool :=
  decide (opts.checkSpam ≠ some false) && decide (countHashtagTokens caption > 10)

/-- Compliance branch taken: check enabled and some misleading pattern matches. -/
def compHit (opts : OptionsModel) (caption : List Char) : Bool :=
  decide (opts.checkCompliance ≠ some false) && firstMatchScan caption MISLEADING_PATTERNS

/-- The running score after the sequence of `score -= n` branch bodies, before the
final clamp. -/
def rawScore (opts : OptionsModel) (caption : List Char) : ℤ :=
  100 - (if hateHit opts caption then 30 else 0) - (if spamHit opts caption then 20 else 0)
    - (if emojiHit opts caption then 10 else 0) - (if tagsHit opts caption then 10 else 0)
    - (if compHit opts caption then 25 else 0)

/-- The three computed metrics. -/
structure Metrics where
  engagementScore : ℕ
  readabilityScore : ℕ
  hashtagRelevance : ℤ
deriving DecidableEq

/-- The suggestions object; absent fields are `none`. -/
structure Suggestions where
  caption : Option (List Char)
  hashtags : Option (List (List Char))
deriving DecidableEq

/-- The `ValidationResponse` body of a 200 reply. -/
structure ValidationResponse where
  safe : Bool
  score : ℤ
  issues : List String
  suggestions : Suggestions
  metrics : Metrics
  processingTime : Nat
deriving DecidableEq

/-- The validation pipeline run on an accepted body: the three gated checks in
source order, the unconditional metrics, the gated suggestions, and the final
clamp of the score to [0, 100]. -/
def validate (elapsed : Nat) (body : BodyModel) : ValidationResponse :=
  let caption := body.caption
  let opts := body.options
  let issues :=
    (if hateHit opts caption then ["Potentially inappropriate content detected"] else []) ++
    (if spamHit opts caption then ["Spam-like content detected"] else []) ++
    (if emojiHit opts caption then ["Excessive emoji usage detected"] else []) ++
    (if tagsHit opts caption then ["Too many hashtags in caption text"] else []) ++
    (if compHit opts caption then ["Potentially misleading claims detected"] else [])
  let safe := !(hateHit opts caption || spamHit opts caption || compHit opts caption)
  let metrics : Metrics :=
    ⟨calculateEngagementScore caption body.hashtags, calculateReadabilityScore caption,
     calculateHashtagRelevance caption body.hashtags⟩
  let sugHashtags :=
    if decide (opts.optimizeHashtags ≠ some false) && decide (body.hashtags.length > 0) then
      some (optimizeHashtags body.hashtags caption)
    else none
  let sugCaption :=
    if !safe && decide (caption.length > 0) then some (sanitizeCaption caption) else none
  { safe := safe
    score := max 0 (min 100 (rawScore opts caption))
    issues := issues
    suggestions := ⟨sugCaption, sugHashtags⟩
    metrics := metrics
    processingTime := elapsed }

/-- An inbound request: the two key headers and the parsed body (`none` models a
JSON body that fails to parse and throws into the catch). -/
structure RequestModel where
  authHeader : Option (List Char)
  xApiKeyHeader : Option (List Char)
  body : Option BodyModel

/-- Header selection `request.headers.get('Authorization') ||
request.headers.get('X-API-Key')`: a missing or empty Authorization value falls
through to X-API-Key. -/
def getHeaderKey (req : RequestModel) : Option (List Char) :=
  match req.authHeader with
  | some s => if s.isEmpty then req.xApiKeyHeader else some s
  | none => req.xApiKeyHeader

/-- The possible replies of the endpoint, keyed by their error code. -/
inductive ApiResponse where
  | missingKey : ApiResponse
  | invalidKey : String → ApiResponse
  | rateLimited : Option Nat → ApiResponse
  | missingCaption : ApiResponse
  | captionTooLong : ApiResponse
  | internalError : ApiResponse
  | success : ValidationResponse → Nat → Nat → ApiResponse
deriving DecidableEq

/-- HTTP status of each reply. -/
def ApiResponse.status : ApiResponse → Nat
  | .missingKey => 401
  | .invalidKey _ => 401
  | .rateLimited _ => 429
  | .missingCaption => 400
  | .captionTooLong => 400
  | .internalError => 500
  | .success _ _ _ => 200

/-- Machine-readable error code of each reply (`none` on success). -/
def ApiResponse.errorCode : ApiResponse → Option String
  | .missingKey => some "MISSING_API_KEY"
  | .invalidKey _ => some "INVALID_API_KEY"
  | .rateLimited _ => some "RATE_LIMIT_EXCEEDED"
  | .missingCaption => some "MISSING_CAPTION"
  | .captionTooLong => some "CAPTION_TOO_LONG"
  | .internalError => some "INTERNAL_ERROR"
  | .success _ _ _ => none

/-- The `Retry-After` header value, present only on the 429 reply. -/
def ApiResponse.retryAfter : ApiResponse → Option Nat
  | .rateLimited _ => some 60
  | _ => none

/-- JS `x || d` on an optional number (0 also falls back, as `Number(0)` is falsy). -/
def jsNumOr (x : Option Nat) (d : Nat) : Nat :=
  match x with
  | some n => if n = 0 then d else n
  | none => d

/-- The `POST /api/v1/validate` handler: header extraction, key validation, rate
check, body parse, caption guards, then the validator; the success reply carries
the body plus the two rate-limit headers `rateLimit.limit || 10` and
`rateLimit.remaining || 0`. -/
def POST (env : Env) (req : RequestModel) : ApiResponse :=
  match getHeaderKey req with
  | none => .missingKey
  | some apiKey =>
    if apiKey.isEmpty then .missingKey
    else
      let vk := validateApiKey env apiKey
      if vk.valid = false then .invalidKey ((vk.error.getD "Invalid API key"))
      else
        let rl := checkRateLimit env apiKey
        if rl.allowed = false then .rateLimited rl.limit
        else
          match req.body with
          | none => .internalError
          | some body =>
            if body.caption.isEmpty then .missingCaption
            else if body.caption.length > 2200 then .captionTooLong
            else .success (validate env.elapsed body) (jsNumOr rl.limit 10)
              (jsNumOr rl.remaining 0)

/-- No store faults: every query succeeds and nothing throws. -/
def noFaults : Faults := ⟨false, false, false, false, false⟩

/-- An absent `options` object: every flag missing, hence every check enabled. -/
def defaultOptions : OptionsModel := ⟨none, none, none, none, none⟩

/-- A free-tier profile with plenty of remaining quota. -/
def demoProfile : Profile := ⟨0, 100, "free"⟩

/-- An active demo key owned by `demoProfile`. -/
def demoKeyRow : ApiKeyRow := ⟨1, "sk_demo123".toList, true, demoProfile⟩

/-- A configured store holding the demo key and an empty usage log. -/
def demoStore : Store := ⟨true, [demoKeyRow], []⟩

/-- A fault-free environment over `demoStore`. -/
def demoEnv : Env := ⟨demoStore, noFaults, 1000000, 5⟩

/-- A benign request body with default options. -/
def demoBody : BodyModel := ⟨"Hello world".toList, [], defaultOptions⟩

/-- The demo key sent as `Authorization: Bearer sk_demo123`. -/
def reqBearer : RequestModel := ⟨some "Bearer sk_demo123".toList, none, some demoBody⟩

/-- The same key sent as `X-API-Key: sk_demo123`. -/
def reqXKey : RequestModel := ⟨none, some "sk_demo123".toList, some demoBody⟩

/-- A profile whose lifetime call count has reached its limit. -/
def quotaProfile : Profile := ⟨100, 100, "free"⟩

/-- An active key owned by the exhausted profile. -/
def quotaKeyRow : ApiKeyRow := ⟨2, "sk_quota".toList, true, quotaProfile⟩

/-- Environment holding only the exhausted key. -/
def quotaEnv : Env := ⟨⟨true, [quotaKeyRow], []⟩, noFaults, 0, 0⟩

/-- A request presenting the exhausted key via `X-API-Key`. -/
def quotaReq : RequestModel := ⟨none, some "sk_quota".toList, some demoBody⟩

/-- A body whose caption is a bare inappropriate-pattern word. -/
def hateBody : BodyModel := ⟨"hate".toList, [], defaultOptions⟩

/-- A free-tier key for the rate-limit scenario. -/
def rateKeyRow : ApiKeyRow := ⟨3, "sk_rate".toList, true, ⟨0, 100, "free"⟩⟩

/-- Ten usage-log rows for that key inside the trailing minute. -/
def rateLogs : List UsageLog := (List.range 10).map fun i => ⟨3, 999990 + (i : Int)⟩

/-- Environment in which the free key already has ten calls logged this minute. -/
def rateEnv : Env := ⟨⟨true, [rateKeyRow], rateLogs⟩, noFaults, 1000000, 1⟩

/-- Environment whose store errors on the rate check's key/tier query. -/
def rlKeyErrEnv : Env := ⟨demoStore, ⟨false, false, true, false, false⟩, 1000000, 5⟩

/-- Environment whose store errors on the rate check's usage-log query. -/
def rlUsageErrEnv : Env := ⟨demoStore, ⟨false, false, false, true, false⟩, 1000000, 5⟩

/-- Environment whose store throws during the rate check. -/
def rlRaiseEnv : Env := ⟨demoStore, ⟨false, false, false, false, true⟩, 1000000, 5⟩

/-- Environment whose store throws during key validation. -/
def vkRaiseEnv : Env := ⟨demoStore, ⟨false, true, false, false, false⟩, 1000000, 5⟩

/-- Thirty distinct, lower-case, hash-prefixed tags. -/
def cleanTags : List (List Char) :=
  ["#a".toList, "#b".toList, "#c".toList, "#d".toList, "#e".toList, "#f".toList,
   "#g".toList, "#h".toList, "#i".toList, "#j".toList, "#k".toList, "#l".toList,
   "#m".toList, "#n".toList, "#o".toList, "#p".toList, "#q".toList, "#r".toList,
   "#s".toList, "#t".toList, "#u".toList, "#v".toList, "#w".toList, "#x".toList,
   "#y".toList, "#z".toList, "#aa".toList, "#ab".toList, "#ac".toList, "#ad".toList]

/-- A body whose caption exceeds the 2200-character limit. -/
def longBody : BodyModel := ⟨List.replicate 2201 'a', [], defaultOptions⟩

/-- A request carrying the over-long caption under the demo key. -/
def longReq : RequestModel := ⟨none, some "sk_demo123".toList, some longBody⟩

/-- The break-on-first-match scan detects exactly what an existential over the table
detects. -/
theorem firstMatchScan_eq_any (caption : List Char) (l : List RePat) :
    firstMatchScan caption l = l.any fun p => testPat p caption := by
  induction l with
  | nil => rfl
  | cons p ps ih =>
    rw [firstMatchScan, List.any_cons, ih]
    by_cases h : testPat p caption <;> simp [h]

/-- The score field of a response is the clamped raw score. -/
theorem validate_score (elapsed : Nat) (body : BodyModel) :
    (validate elapsed body).score = max 0 (min 100 (rawScore body.options body.caption)) := rfl

/-- The safe field of a response. -/
theorem validate_safe (elapsed : Nat) (body : BodyModel) :
    (validate elapsed body).safe =
      !(hateHit body.options body.caption || spamHit body.options body.caption ||
        compHit body.options body.caption) := rfl

/-- The issues field of a response. -/
theorem validate_issues (elapsed : Nat) (body : BodyModel) :
    (validate elapsed body).issues =
      (if hateHit body.options body.caption
        then ["Potentially inappropriate content detected"] else []) ++
      (if spamHit body.options body.caption then ["Spam-like content detected"] else []) ++
      (if emojiHit body.options body.caption then ["Excessive emoji usage detected"] else []) ++
      (if tagsHit body.options body.caption then ["Too many hashtags in caption text"] else []) ++
      (if compHit body.options body.caption
        then ["Potentially misleading claims detected"] else []) := rfl

/-- C3: for every caption and every combination of enabled checks and triggered
penalty branches, the returned score is 100 minus the sum of the triggered
penalties (hate 30, spam phrase 20, excessive emoji 10, excessive hashtags 10,
misleading claim 25), clamped to [0, 100] as the final step, and therefore never
negative and never above 100. -/
theorem c3_score_clamped (elapsed : Nat) (body : BodyModel) :
    (validate elapsed body).score =
      max 0 (min 100 (100 -
        ((if hateHit body.options body.caption then (30 : ℤ) else 0) +
         (if spamHit body.options body.caption then 20 else 0) +
         (if emojiHit body.options body.caption then 10 else 0) +
         (if tagsHit body.options body.caption then 10 else 0) +
         (if compHit body.options body.caption then 25 else 0)))) ∧
    0 ≤ (validate elapsed body).score ∧ (validate elapsed body).score ≤ 100 := by
  refine ⟨?_, ?_, ?_⟩
  · rw [validate_score, rawScore]
    split_ifs <;> decide
  · rw [validate_score]
    exact le_max_left 0 _
  · rw [validate_score]
    exact max_le (by norm_num) (min_le_left _ _)

/-- C9: the readability score is a total function of the caption (the divisor is the
sentence count floored at 1), and its value is exactly 90 when the words-per-sentence
average lies in [10, 15], 70 when it lies in [5, 20] but not [10, 15], and 50
otherwise. -/
theorem c9_readability_trichotomy (caption : List Char) :
    avgWordsPerSentence caption =
      ((wordsOf caption).length : ℚ) / ((max 1 (sentencesOf caption).length : ℕ) : ℚ) ∧
    (calculateReadabilityScore caption = 90 ∨ calculateReadabilityScore caption = 70 ∨
      calculateReadabilityScore caption = 50) ∧
    (calculateReadabilityScore caption = 90 ↔
      10 ≤ avgWordsPerSentence caption ∧ avgWordsPerSentence caption ≤ 15) ∧
    (calculateReadabilityScore caption = 70 ↔
      ¬(10 ≤ avgWordsPerSentence caption ∧ avgWordsPerSentence caption ≤ 15) ∧
      5 ≤ avgWordsPerSentence caption ∧ avgWordsPerSentence caption ≤ 20) ∧
    (calculateReadabilityScore caption = 50 ↔
      ¬(5 ≤ avgWordsPerSentence caption ∧ avgWordsPerSentence caption ≤ 20)) := by
  refine ⟨rfl, ?_⟩
  unfold calculateReadabilityScore
  split_ifs with h1 h2
  · refine ⟨Or.inl rfl, by simp [h1], by simp [h1], ?_⟩
    have h5 : 5 ≤ avgWordsPerSentence caption := by linarith [h1.1]
    have h20 : avgWordsPerSentence caption ≤ 20 := by linarith [h1.2]
    simp [h5, h20]
  · exact ⟨Or.inr (Or.inl rfl), by simp [h1], by simp [h1, h2], by simp [h2]⟩
  · exact ⟨Or.inr (Or.inr rfl), by simp [h1], by simp [h2], by simp [h2]⟩

/-- C10: the `predictEngagement` option is declared but never read by the handler:
two requests identical except for the value or presence of that option produce
identical responses (processing time is part of the environment and is held fixed
here, so even it agrees). -/
theorem c10_predict_engagement_no_effect (env : Env) (req : RequestModel)
    (body : BodyModel) (pe1 pe2 : Option Bool) :
    POST env { req with body := some { body with options :=
        { body.options with predictEngagement := pe1 } } } =
      POST env { req with body := some { body with options :=
        { body.options with predictEngagement := pe2 } } } := rfl

/-- C1 fails on the code: with one and the same valid, active, in-quota key and an
empty rate window, the `X-API-Key` form is accepted with HTTP 200, but the
`Authorization: Bearer` form is rejected with HTTP 429, because `checkRateLimit`
receives the raw header value (the `Bearer ` prefix is stripped only in
`validateApiKey`), so its key lookup finds no row and it returns `allowed: false`:
the rate check does not resolve the same key record for both header forms. -/
theorem c1_bearer_header_divergence :
    (POST demoEnv reqXKey).status = 200 ∧
    (validateApiKey demoEnv "Bearer sk_demo123".toList).valid = true ∧
    (checkRateLimit demoEnv "Bearer sk_demo123".toList).allowed = false ∧
    POST demoEnv reqBearer = ApiResponse.rateLimited none ∧
    (POST demoEnv reqBearer).status = 429 := by
  refine ⟨?_, ?_, ?_, ?_, ?_⟩ <;> decide

/-- C2 counterexample: a request whose key's owner has `api_calls_count =
api_calls_limit` is answered with HTTP 401 `INVALID_API_KEY` (message `API limit
exceeded. Please upgrade your plan.`) and no `Retry-After` header, not with the
HTTP 429 the claim states. -/
theorem c2_quota_is_401_not_429 :
    POST quotaEnv quotaReq =
      ApiResponse.invalidKey "API limit exceeded. Please upgrade your plan." ∧
    (POST quotaEnv quotaReq).status = 401 ∧
    ¬(POST quotaEnv quotaReq).status = 429 ∧
    (POST quotaEnv quotaReq).retryAfter = none := by
  refine ⟨?_, ?_, ?_, ?_⟩ <;> decide

/-- C2 amended: for every request whose key resolves to a user with lifetime call
count at or above the plan limit, the gate denies the request inside
`validateApiKey`, before the rate check ever runs — so independently of the rate
window and of any rate-check fault — and the denial surfaces as HTTP 401 with code
`INVALID_API_KEY` and the quota message, not as HTTP 429. -/
theorem c2_quota_denied_as_invalid_key (env : Env) (req : RequestModel) (k : List Char)
    (row : ApiKeyRow)
    (hk : getHeaderKey req = some k) (hne : k.isEmpty = false)
    (hconf : env.store.configured = true)
    (hvr : env.faults.vkRaises = false) (hvq : env.faults.vkQueryErr = false)
    (hpre : "sk_".toList.isPrefixOf (cleanKeyOf k) = true)
    (hfind : findActiveKey env.store (cleanKeyOf k) = some row)
    (hquota : row.profile.api_calls_count ≥ row.profile.api_calls_limit) :
    POST env req = ApiResponse.invalidKey "API limit exceeded. Please upgrade your plan." ∧
    (POST env req).status = 401 ∧
    (POST env req).errorCode = some "INVALID_API_KEY" := by
  have hvk : validateApiKey env k =
      ⟨false, none, some "API limit exceeded. Please upgrade your plan."⟩ := by
    unfold validateApiKey
    rw [hpre]
    simp [hconf, hne, hvr, hvq, hfind, hquota]
  have hpost : POST env req =
      ApiResponse.invalidKey "API limit exceeded. Please upgrade your plan." := by
    unfold POST
    rw [hk]
    simp [hne, hvk]
  exact ⟨hpost, by rw [hpost]; rfl, by rw [hpost]; rfl⟩

/-- C2 witness: the amended theorem applied to the concrete exhausted-quota fixture. -/
theorem c2_quota_denied_witness :
    POST quotaEnv quotaReq =
      ApiResponse.invalidKey "API limit exceeded. Please upgrade your plan." ∧
    (POST quotaEnv quotaReq).status = 401 ∧
    (POST quotaEnv quotaReq).errorCode = some "INVALID_API_KEY" :=
  c2_quota_denied_as_invalid_key quotaEnv quotaReq "sk_quota".toList quotaKeyRow
    (by decide) (by decide) (by decide) (by decide) (by decide) (by decide) (by decide)
    (by decide)

/-- C4: with `checkHateSpeech` not disabled and the caption matching some pattern of
the inappropriate-content table, the response is unsafe, its score is at most 70,
the fixed hate-speech issue message appears exactly once (the scan short-circuits at
the first matching pattern, so the table contributes a single issue), and the
break-style table scan reports a match. -/
theorem c4_hate_speech_detection (elapsed : Nat) (body : BodyModel)
    (hOn : body.options.checkHateSpeech ≠ some false)
    (hMatch : ∃ p ∈ INAPPROPRIATE_PATTERNS, testPat p body.caption = true) :
    (validate elapsed body).safe = false ∧
    (validate elapsed body).score ≤ 70 ∧
    (validate elapsed body).issues.count "Potentially inappropriate content detected" = 1 ∧
    firstMatchScan body.caption INAPPROPRIATE_PATTERNS = true := by
  have hscan : firstMatchScan body.caption INAPPROPRIATE_PATTERNS = true := by
    rw [firstMatchScan_eq_any]
    rcases hMatch with ⟨p, hp, ht⟩
    exact List.any_eq_true.mpr ⟨p, hp, ht⟩
  have hhit : hateHit body.options body.caption = true := by
    simp [hateHit, hscan, hOn]
  refine ⟨?_, ?_, ?_, hscan⟩
  · rw [validate_safe, hhit]
    rfl
  · rw [validate_score]
    have hraw : rawScore body.options body.caption ≤ 70 := by
      rw [rawScore, hhit]
      split_ifs <;> first | decide | simp_all
    exact max_le (by norm_num) (le_trans (min_le_right _ _) hraw)
  · rw [validate_issues, hhit]
    rw [List.count_append, List.count_append, List.count_append, List.count_append]
    split_ifs <;> first | decide | simp_all

/-- C4 witness: the theorem applied to the caption `hate`, which matches the first
inappropriate-content pattern. -/
theorem c4_hate_speech_witness :
    (validate 0 hateBody).safe = false ∧
    (validate 0 hateBody).score ≤ 70 ∧
    (validate 0 hateBody).issues.count "Potentially inappropriate content detected" = 1 ∧
    firstMatchScan hateBody.caption INAPPROPRIATE_PATTERNS = true :=
  c4_hate_speech_detection 0 hateBody (by decide) ⟨inappropriatePat1, by decide, by decide⟩

/-- C5: when the rate check's key lookup succeeds and no store fault occurs, the
per-minute threshold is 10 for free, 60 for pro, 1000 for enterprise, any other
tier falling back to free's limit, and with `count` the number of log entries for
the key in the trailing 60 seconds: `count ≥ threshold` denies with remaining 0,
otherwise the request is allowed with `remaining = threshold - count`. -/
theorem c5_rate_check_thresholds (env : Env) (k : List Char) (row : ApiKeyRow)
    (hconf : env.store.configured = true)
    (hrr : env.faults.rlRaises = false) (hkq : env.faults.rlKeyQueryErr = false)
    (huq : env.faults.rlUsageQueryErr = false)
    (hfind : findKey env.store k = some row) :
    (rateLimitsFor "free").perMinute = 10 ∧
    (rateLimitsFor "pro").perMinute = 60 ∧
    (rateLimitsFor "enterprise").perMinute = 1000 ∧
    (∀ t : String, t ≠ "free" → t ≠ "pro" → t ≠ "enterprise" →
      (rateLimitsFor t).perMinute = (rateLimitsFor "free").perMinute) ∧
    (recentUsageCount env row.id ≥ (rateLimitsFor row.profile.subscription_tier).perMinute →
      checkRateLimit env k =
        ⟨false, some (rateLimitsFor row.profile.subscription_tier).perMinute, some 0⟩) ∧
    (recentUsageCount env row.id < (rateLimitsFor row.profile.subscription_tier).perMinute →
      checkRateLimit env k =
        ⟨true, some (rateLimitsFor row.profile.subscription_tier).perMinute,
         some ((rateLimitsFor row.profile.subscription_tier).perMinute -
           recentUsageCount env row.id)⟩) := by
  refine ⟨rfl, rfl, rfl, ?_, ?_, ?_⟩
  · intro t h1 h2 h3
    simp [rateLimitsFor, h1, h2, h3]
  · intro hge
    unfold checkRateLimit
    simp [hconf, hrr, hkq, huq, hfind, hge]
  · intro hlt
    unfold checkRateLimit
    simp [hconf, hrr, hkq, huq, hfind, Nat.not_le.mpr hlt]

/-- C5 witness: with threshold 10 and ten prior log entries inside the trailing
minute, the next request is denied with remaining 0. -/
theorem c5_rate_check_witness :
    recentUsageCount rateEnv rateKeyRow.id ≥
      (rateLimitsFor rateKeyRow.profile.subscription_tier).perMinute ∧
    checkRateLimit rateEnv "sk_rate".toList =
      ⟨false, some (rateLimitsFor rateKeyRow.profile.subscription_tier).perMinute, some 0⟩ :=
  ⟨by decide,
   (c5_rate_check_thresholds rateEnv "sk_rate".toList rateKeyRow rfl rfl rfl rfl
      (by decide)).2.2.2.2.1 (by decide)⟩

/-- C6 counterexample: the store can error during the rate check and still have the
gate deny: when the rate check's own key/tier query errors, its `data` comes back
null, the source treats that as key-not-found and returns `allowed: false`, and the
request dies with HTTP 429 — not the fail-open `ALLOWED` the claim asserts for every
store error during the rate check. -/
theorem c6_rate_key_error_denies :
    (checkRateLimit rlKeyErrEnv "sk_demo123".toList).allowed = false ∧
    POST rlKeyErrEnv reqXKey = ApiResponse.rateLimited none ∧
    (POST rlKeyErrEnv reqXKey).status = 429 := by
  refine ⟨?_, ?_, ?_⟩ <;> decide

/-- C6 amended: the asymmetry holds in this form: a throw anywhere in the rate
check fails open, and an error on the usage-log query fails open provided the key
row itself was found; but an error on the rate check's key/tier query fails closed
(denied), and any error or throw during key validation fails closed. -/
theorem c6_error_asymmetry (env : Env) (k : List Char) :
    (env.store.configured = true → env.faults.rlRaises = true →
      (checkRateLimit env k).allowed = true) ∧
    (env.store.configured = true → env.faults.rlRaises = false →
      env.faults.rlKeyQueryErr = false → env.faults.rlUsageQueryErr = true →
      (∃ row, findKey env.store k = some row) → (checkRateLimit env k).allowed = true) ∧
    (env.store.configured = true → env.faults.rlRaises = false →
      env.faults.rlKeyQueryErr = true → (checkRateLimit env k).allowed = false) ∧
    (env.faults.vkRaises = true → (validateApiKey env k).valid = false) ∧
    (env.faults.vkQueryErr = true → (validateApiKey env k).valid = false) := by
  refine ⟨?_, ?_, ?_, ?_, ?_⟩
  · intro h1 h2
    unfold checkRateLimit
    simp [h1, h2]
  · intro h1 h2 h3 h4 hrow
    rcases hrow with ⟨row, hrow⟩
    unfold checkRateLimit
    simp [h1, h2, h3, h4, hrow]
  · intro h1 h2 h3
    unfold checkRateLimit
    simp [h1, h2, h3]
  · intro h
    unfold validateApiKey
    split_ifs <;> simp_all
  · intro h
    unfold validateApiKey
    split_ifs <;> simp_all

/-- C6 witness: the amended theorem applied to the four concrete fault
environments. -/
theorem c6_error_asymmetry_witness :
    (checkRateLimit rlRaiseEnv "sk_demo123".toList).allowed = true ∧
    (checkRateLimit rlUsageErrEnv "sk_demo123".toList).allowed = true ∧
    (checkRateLimit rlKeyErrEnv "sk_demo123".toList).allowed = false ∧
    (validateApiKey vkRaiseEnv "sk_demo123".toList).valid = false :=
  ⟨(c6_error_asymmetry rlRaiseEnv "sk_demo123".toList).1 rfl rfl,
   (c6_error_asymmetry rlUsageErrEnv "sk_demo123".toList).2.1 rfl rfl rfl rfl
     ⟨demoKeyRow, by decide⟩,
   (c6_error_asymmetry rlKeyErrEnv "sk_demo123".toList).2.2.1 rfl rfl rfl,
   (c6_error_asymmetry vkRaiseEnv "sk_demo123".toList).2.2.2.1 rfl⟩

/-- C8: once the gate admits the request, a body whose caption is strictly longer
than 2200 characters is answered with the `CAPTION_TOO_LONG` error; the reply
carries no `ValidationResponse`, the handler returning before the validator, the
metrics or the suggestion generation are ever reached. -/
theorem c8_caption_too_long (env : Env) (req : RequestModel) (k : List Char)
    (body : BodyModel)
    (hk : getHeaderKey req = some k) (hne : k.isEmpty = false)
    (hv : (validateApiKey env k).valid = true)
    (hr : (checkRateLimit env k).allowed = true)
    (hb : req.body = some body) (hlen : body.caption.length > 2200) :
    POST env req = ApiResponse.captionTooLong ∧
    (POST env req).errorCode = some "CAPTION_TOO_LONG" ∧
    (POST env req).status = 400 ∧
    ∀ vr lim rem, POST env req ≠ ApiResponse.success vr lim rem := by
  have hnem : body.caption.isEmpty = false := by
    cases hc : body.caption with
    | nil => rw [hc] at hlen; simp at hlen
    | cons a t => rfl
  have hpost : POST env req = ApiResponse.captionTooLong := by
    unfold POST
    rw [hk]
    simp [hne, hv, hr, hb, hnem, hlen]
  refine ⟨hpost, by rw [hpost]; rfl, by rw [hpost]; rfl, ?_⟩
  intro vr lim rem
  rw [hpost]
  intro hcontra
  cases hcontra

/-- C8 witness: the theorem applied to a 2201-character caption under the demo key. -/
theorem c8_caption_too_long_witness :
    POST demoEnv longReq = ApiResponse.captionTooLong ∧
    (POST demoEnv longReq).errorCode = some "CAPTION_TOO_LONG" ∧
    (POST demoEnv longReq).status = 400 :=
  have h := c8_caption_too_long demoEnv longReq "sk_demo123".toList longBody rfl
    (by decide) (by decide) (by decide) rfl
    (by show (List.replicate 2201 'a').length > 2200
        rw [List.length_replicate]
        omega)
  ⟨h.1, h.2.1, h.2.2.1⟩

/-- A map whose function fixes every element of the list is the identity. -/
theorem map_id_of_forall {α : Type} (f : α → α) (l : List α) (h : ∀ x ∈ l, f x = x) :
    l.map f = l := by
  induction l with
  | nil => rfl
  | cons a t ih =>
    rw [List.map_cons, h a (by simp), ih fun x hx => h x (by simp [hx])]

/-- The Set-based de-duplication pass leaves a duplicate-free list alone when none
of its elements has been seen yet. -/
theorem dedupFirstAux_eq_self (l : List (List Char)) (seen : List (List Char))
    (hnd : l.Nodup) (hseen : ∀ x ∈ l, seen.contains x = false) :
    dedupFirstAux seen l = l := by
  induction l generalizing seen with
  | nil => rfl
  | cons a t ih =>
    rw [dedupFirstAux, hseen a (by simp)]
    simp only [Bool.false_eq_true, if_false]
    have hrest : ∀ x ∈ t, (a :: seen).contains x = false := by
      intro x hx
      have hxa : ¬x = a := fun he => (List.nodup_cons.mp hnd).1 (he ▸ hx)
      have hxs : seen.contains x = false := hseen x (List.mem_cons_of_mem a hx)
      rw [List.contains_cons, hxs]
      simp [hxa]
    rw [ih (a :: seen) (List.Nodup.of_cons hnd) hrest]

/-- A tag already starting with a hash is left unchanged. -/
theorem ensureHash_eq_self (x : List Char) (hx : x.head? = some '#') : ensureHash x = x := by
  match x with
  | [] => simp at hx
  | c :: t =>
    simp only [List.head?_cons, Option.some.injEq] at hx
    rw [hx]
    rfl

/-- The trending loop never grows a list that already holds 30 entries. -/
theorem addTrendingAux_of_full (acc : List (List Char)) (ts : List (List Char))
    (h : ¬acc.length < 30) : addTrendingAux acc ts = acc := by
  induction ts with
  | nil => rfl
  | cons t ts ih =>
    rw [addTrendingAux, decide_eq_false h]
    simp only [Bool.false_and, Bool.false_eq_true, if_false]
    exact ih

/-- C7: hashtag optimization is idempotent on an already-clean input: a list of
exactly 30 distinct, lower-case, hash-prefixed tags is returned unchanged (so in
particular as the same set), and running the optimizer on its own output changes
nothing. -/
theorem c7_optimize_idempotent (hs : List (List Char)) (cap1 cap2 : List Char)
    (hlen : hs.length = 30) (hnd : hs.Nodup)
    (hlow : ∀ h ∈ hs, lowerList h = h)
    (hhash : ∀ h ∈ hs, h.head? = some '#') :
    optimizeHashtags hs cap1 = hs ∧
    optimizeHashtags (optimizeHashtags hs cap1) cap2 = optimizeHashtags hs cap1 := by
  have hfix : ∀ c : List Char, optimizeHashtags hs c = hs := by
    intro c
    show addTrendingAux (((dedupFirst (hs.map lowerList)).map ensureHash).take 30) TRENDING = hs
    rw [map_id_of_forall lowerList hs hlow]
    unfold dedupFirst
    rw [dedupFirstAux_eq_self hs [] hnd fun x hx => rfl]
    rw [map_id_of_forall ensureHash hs fun x hx => ensureHash_eq_self x (hhash x hx)]
    rw [← hlen, List.take_length]
    exact addTrendingAux_of_full hs TRENDING (by rw [hlen]; omega)
  exact ⟨hfix cap1, by rw [hfix cap1, hfix cap2]⟩

/-- C7 witness: the theorem applied to thirty concrete clean tags. -/
theorem c7_optimize_idempotent_witness :
    optimizeHashtags cleanTags [] = cleanTags ∧
    optimizeHashtags (optimizeHashtags cleanTags []) [] = optimizeHashtags cleanTags [] :=
  c7_optimize_idempotent cleanTags [] [] (by decide) (by decide) (by decide) (by decide)

end SafeCaption
